import Mathlib

/-
Verification of the authentication / session-validity core of the
contact-management API (goit-pythonweb-hw-12).

The Python sources are shallowly embedded as pure Lean functions:

* `app/models.py`     → `App.User`, `App.RefreshToken`
* `app/schemas.py`    → `App.UserResponse`, `App.Token`
* `app/security.py`   → `App.get_current_user`
* `app/auth.py`       → `App.create_access_token`, `App.authenticate_user`,
                        `App.reset_password`, `App.login_for_access_token`
* redis client        → `App.Cache` with `cache_get` / `cache_set` / `cache_delete`

Timestamps (`datetime.timestamp()` floats and JWT `iat`/`exp` claims) are
modelled as exact rationals `Rat`; every float is a rational, and all the code
does with timestamps is compare them.  A presented JWT is modelled by
`Option Payload`: `none` is a malformed or wrongly-signed token (anything
`jwt.decode` rejects independently of time), `some p` a well-signed token
carrying claims `p`.  Databases are lists of rows; `query(...).first()` is
`List.find?`.  The redis cache is an association list from keys to stored
snapshots together with the TTL they were stored with.
-/

set_option autoImplicit false

namespace App

/-- Role enumeration (`app/enums.py`, referenced from `models.py` and
`dependencies.py`). -/
inductive UserRole where
  | user
  | admin
deriving DecidableEq, Repr

/-- `models.User` (`app/models.py`): one row of the `users` table.  Only the
columns the authentication core reads are carried.  `last_password_reset` is a
nullable datetime column, modelled as its `timestamp()` value. -/
structure User where
  id : Nat
  username : String
  email : String
  hashed_password : String
  role : UserRole
  last_password_reset : Option Rat
  is_active : Bool
  is_verified : Bool
  verification_token : Option String
  avatar_url : Option String
deriving DecidableEq, Repr

/-- `schemas.UserResponse` (`app/schemas.py`): the identity snapshot that is
returned to callers and stored in the redis cache. -/
structure UserResponse where
  id : Nat
  username : String
  email : String
  is_active : Bool
  is_verified : Bool
  avatar_url : Option String
  last_password_reset : Option Rat
  role : UserRole
deriving DecidableEq, Repr

/-- `schemas.UserResponse.model_validate(user)`: project a `users` row to the
snapshot schema. -/
def UserResponse.model_validate (u : User) : UserResponse :=
  ⟨u.id, u.username, u.email, u.is_active, u.is_verified, u.avatar_url,
    u.last_password_reset, u.role⟩

/-- Decoded JWT claims.  Access tokens carry `sub`, `iat` and `exp`
(`create_access_token`); verification and reset tokens carry `sub` and `exp`
only (`iat = none`). -/
structure Payload where
  sub : Option String
  iat : Option Rat
  exp : Rat
deriving DecidableEq, Repr

/-- A presented token string, as seen through `jose.jwt.decode`: `none` for a
malformed or badly-signed string, `some p` for a token correctly signed with
the server secret and carrying claims `p`. -/
def SignedToken : Type := Option Payload

/-- `jose.jwt.decode(token, SECRET_KEY, ...)` at clock time `now`: fails
(raises `JWTError`) on a malformed/badly-signed token or when the `exp` claim
lies in the past; otherwise returns the claims. -/
def jwt_decode (token : SignedToken) (now : Rat) : Option Payload :=
  match token with
  | none => none
  | some p => if now ≤ p.exp then some p else none

/-- One stored cache entry: the snapshot JSON that was `set`, together with
the `ex=` expiration (TTL in seconds) it was stored with. -/
structure CacheEntry where
  value : UserResponse
  ex : Nat
deriving DecidableEq, Repr

/-- The redis key-value store visible to this core: an association list from
keys to entries, most recent write first. -/
def Cache : Type := List (String × CacheEntry)

/-- `redis_client.get(key)`: the entry stored under `key`, if any. -/
def cache_get (c : Cache) (k : String) : Option CacheEntry :=
  (List.find? (fun kv => kv.1 = k) c).map (fun kv => kv.2)

/-- `redis_client.set(key, value, ex=ttl)`: overwrite-wins write. -/
def cache_set (c : Cache) (k : String) (v : UserResponse) (ttl : Nat) : Cache :=
  (k, ⟨v, ttl⟩) :: List.filter (fun kv => kv.1 ≠ k) c

/-- `redis_client.delete(key)`. -/
def cache_delete (c : Cache) (k : String) : Cache :=
  List.filter (fun kv => kv.1 ≠ k) c

/-- An `HTTPException(status_code=..., detail=...)`. -/
structure HTTPError where
  status_code : Nat
  detail : String
deriving DecidableEq, Repr

/-- `security.py`: the shared 401 used for invalid tokens, missing claims and
unknown subjects alike (the spec's `InvalidCredential` / `UnknownIdentity`,
deliberately indistinguishable to end users). -/
def credentials_exception : HTTPError :=
  ⟨401, "Could not validate credentials"⟩

/-- `security.py`: the 401 raised when a token predates the account's last
password reset (the spec's `StaleCredential`). -/
def stale_token_exception : HTTPError :=
  ⟨401, "Token is no longer valid. Please log in again."⟩

/-- `db.query(models.User).filter(models.User.email == email).first()`. -/
def queryUserByEmail (db : List User) (email : String) : Option User :=
  List.find? (fun u => u.email = email) db

/-- `security.get_current_user` (`app/security.py`, lines 24–89), as a pure
function of the presented token, the users table, the cache contents, the
clock and the configured cache TTL (`REDIS_CACHE_EXPIRATION`).  Returns the
response (snapshot or `HTTPException`) together with the cache state after the
call. -/
def get_current_user (ttl : Nat) (token : SignedToken) (db : List User)
    (cache : Cache) (now : Rat) : Except HTTPError UserResponse × Cache :=
  match jwt_decode token now with
  | none => (.error credentials_exception, cache)
  | some payload =>
    match payload.sub with
    | none => (.error credentials_exception, cache)
    | some email =>
      match payload.iat with
      | none => (.error credentials_exception, cache)
      | some token_iat =>
        let redis_key := "user:" ++ email
        match cache_get cache redis_key with
        | some entry =>
          let user := entry.value
          match user.last_password_reset with
          | some r =>
            if token_iat < r then (.error stale_token_exception, cache)
            else (.ok user, cache)
          | none => (.ok user, cache)
        | none =>
          match queryUserByEmail db email with
          | none => (.error credentials_exception, cache)
          | some user =>
            match user.last_password_reset with
            | some r =>
              if token_iat < r then (.error stale_token_exception, cache)
              else
                let redis_user := UserResponse.model_validate user
                (.ok redis_user, cache_set cache redis_key redis_user ttl)
            | none =>
              let redis_user := UserResponse.model_validate user
              (.ok redis_user, cache_set cache redis_key redis_user ttl)

/-- `auth.create_access_token(data, expires_delta)` (`app/auth.py`, lines
63–81).  Every call site passes `data={"sub": email}`; the payload gains
`exp = now + expires_delta` (default 15 minutes) and `iat = now`, and the
result is signed with the server secret. -/
def create_access_token (sub : String) (expires_delta : Option Rat) (now : Rat) :
    SignedToken :=
  let expire := match expires_delta with
    | some d => now + d
    | none => now + 15 * 60
  some ⟨some sub, some now, expire⟩

/-- `auth.authenticate_user(db, email, password)` (`app/auth.py`, lines
84–99), parametrised by bcrypt's `verify_password` (`verifyFn password hash`
is `pwd_context.verify(password, hash)`). -/
def authenticate_user (verifyFn : String → String → Bool) (db : List User)
    (email password : String) : Option User :=
  match queryUserByEmail db email with
  | none => none
  | some user => if verifyFn password user.hashed_password then some user else none

/-- Mutating the row returned by `query(...).filter(email == e).first()` and
committing: apply `f` to the first row whose email is `e`. -/
def updateFirstByEmail (db : List User) (email : String) (f : User → User) :
    List User :=
  match db with
  | [] => []
  | u :: rest =>
    if u.email = email then f u :: rest
    else u :: updateFirstByEmail rest email f

/-- `auth.reset_password(token, new_password, db)` (`app/auth.py`, lines
218–256), parametrised by bcrypt's `get_password_hash`.  Returns the response
together with the users table and cache state after the call.  `now` is the
clock at the call: it is used both to check the reset token's `exp` and as the
new `last_password_reset` value (`datetime.now(UTC)`). -/
def reset_password (hashFn : String → String) (token : SignedToken)
    (new_password : String) (db : List User) (cache : Cache) (now : Rat) :
    Except HTTPError String × List User × Cache :=
  match jwt_decode token now with
  | none => (.error ⟨400, "Invalid or expired token"⟩, db, cache)
  | some payload =>
    match payload.sub with
    | none => (.error ⟨400, "Invalid token"⟩, db, cache)
    | some email =>
      if email = "" then (.error ⟨400, "Invalid token"⟩, db, cache)
      else
        match queryUserByEmail db email with
        | none => (.error ⟨404, "User not found"⟩, db, cache)
        | some _ =>
          let db' := updateFirstByEmail db email (fun u =>
            { u with hashed_password := hashFn new_password,
                     last_password_reset := some now })
          let cache' := cache_delete cache ("user:" ++ email)
          (.ok "Password reset successful.", db', cache')

/-- `schemas.Token` (`app/schemas.py`, lines 59–62): the declared response
model of `POST /auth/login`; all three fields are required. -/
structure Token where
  access_token : SignedToken
  refresh_token : SignedToken
  token_type : String

/-- The dict a login handler actually builds and returns, field by field
(`none` = key absent from the dict). -/
structure LoginResponseDict where
  access_token : Option SignedToken
  refresh_token : Option SignedToken
  token_type : Option String

/-- FastAPI's response-model validation of a returned dict against
`schemas.Token`: every required field must be present, else the response
fails validation (a `ResponseValidationError`, surfaced as a 500). -/
def Token.model_validate (d : LoginResponseDict) : Option Token :=
  match d.access_token, d.refresh_token, d.token_type with
  | some a, some r, some t => some ⟨a, r, t⟩
  | _, _, _ => none

/-- `auth.login_for_access_token` (`app/auth.py`, lines 341–369): the JSON
login endpoint.  On authentication failure it raises 401; on success it
returns `{"access_token": ..., "token_type": "bearer"}` — and no other key.
`accessExpireMinutes` is the `ACCESS_TOKEN_EXPIRE_MINUTES` configuration. -/
def login_for_access_token (verifyFn : String → String → Bool)
    (accessExpireMinutes : Rat) (db : List User) (username password : String)
    (now : Rat) : Except HTTPError LoginResponseDict :=
  match authenticate_user verifyFn db username password with
  | none => .error ⟨401, "Incorrect email or password"⟩
  | some user =>
    let access_token :=
      create_access_token user.email (some (accessExpireMinutes * 60)) now
    .ok ⟨some access_token, none, some "bearer"⟩

/-- `models.RefreshToken` (`app/models.py`, lines 79–99): one row of the
`refresh_tokens` table. -/
structure RefreshToken where
  id : Nat
  user_id : Nat
  token : String
  created_at : Rat
  expires_at : Rat
  revoked : Bool
deriving DecidableEq, Repr

/-- Modelled from the spec: `create_refresh_token` is imported and called by
`app/auth_ui_routes.py` but its definition is not among the repository's
source files.  Spec §4.1: "`issue_refresh_token(identity_claim)`: produces a
signed, longer-lived token; also durably records it (owning account, expiry,
revoked=false) through the Credential Store's persistence interface."  The
returned token embeds `sub = email`; the persisted row records the owning
account, the token value, its creation time, its expiry, and `revoked=false`.
-/
def create_refresh_token (email : String) (userId : Nat) (tokenValue : String)
    (now lifetime : Rat) (store : List RefreshToken) :
    SignedToken × List RefreshToken :=
  (some ⟨some email, none, now + lifetime⟩,
   ⟨store.length, userId, tokenValue, now, now + lifetime, false⟩ :: store)

/-- `auth_ui_routes.login_html` (`app/auth_ui_routes.py`, lines 101–142): the
HTML login form handler.  On success it mints an access token and a refresh
token (recording the latter), and sets both as cookies; the pair of cookies is
returned here, together with the refresh-token store after the call.
`rtValue` stands for the generated refresh-token string. -/
def login_html (verifyFn : String → String → Bool)
    (accessExpireMinutes refreshLifetime : Rat) (db : List User)
    (store : List RefreshToken) (username password rtValue : String)
    (now : Rat) :
    Except HTTPError (SignedToken × SignedToken) × List RefreshToken :=
  match authenticate_user verifyFn db username password with
  | none => (.error ⟨401, "Invalid credentials"⟩, store)
  | some user =>
    let access_token :=
      create_access_token user.email (some (accessExpireMinutes * 60)) now
    let rt := create_refresh_token user.email user.id rtValue now refreshLifetime store
    (.ok (access_token, rt.1), rt.2)

/-- The operations the application's route handlers perform, as far as the
authentication core is concerned (`auth.py`, `auth_ui_routes.py`,
`security.py`; the contact CRUD routes only consume `get_current_user` and
never mint tokens). -/
inductive Operation where
  | loginJson (username password : String)
  | loginHtml (username password rtValue : String)
  | resetPassword (token : SignedToken) (newPassword : String)
  | verifyEmail (token : SignedToken)
  | registerUser (username email password : String)
  | resolve (token : SignedToken)
  | logout

/-- The access tokens an operation mints.  Read off the handlers:
`login_for_access_token` and `login_html` are the only call sites of
`create_access_token` in the repository; registration and password-reset mint
only verification/reset tokens (no `iat`, never accepted as access tokens by
themselves), and `get_current_user`, `verify_email` and `logout` mint
nothing. -/
def issued_access_tokens (verifyFn : String → String → Bool)
    (accessExpireMinutes refreshLifetime : Rat) (op : Operation)
    (users : List User) (refresh_store : List RefreshToken) (now : Rat) :
    List SignedToken :=
  match op with
  | .loginJson u p =>
    match login_for_access_token verifyFn accessExpireMinutes users u p now with
    | .ok d => match d.access_token with | some t => [t] | none => []
    | .error _ => []
  | .loginHtml u p rv =>
    match login_html verifyFn accessExpireMinutes refreshLifetime users
        refresh_store u p rv now with
    | (.ok (a, _), _) => [a]
    | (.error _, _) => []
  | _ => []

/-! ### Basic lemmas about the cache and the users table -/

theorem cache_get_cache_set_self (c : Cache) (k : String) (v : UserResponse)
    (ttl : Nat) : cache_get (cache_set c k v ttl) k = some ⟨v, ttl⟩ := by
  simp [cache_get, cache_set, List.find?]

theorem cache_get_cache_delete_self (c : Cache) (k : String) :
    cache_get (cache_delete c k) k = none := by
  have h : List.find? (fun kv => kv.1 = k) (cache_delete c k) = none := by
    rw [List.find?_eq_none]
    intro kv hkv
    have hne := (List.mem_filter.mp hkv).2
    simpa using hne
  simp [cache_get, h]

theorem queryUserByEmail_email {db : List User} {e : String} {u : User}
    (h : queryUserByEmail db e = some u) : u.email = e := by
  have hp := List.find?_some h
  simpa using hp

theorem queryUserByEmail_updateFirstByEmail (db : List User) (e : String)
    (f : User → User) (hf : ∀ u, (f u).email = u.email) :
    queryUserByEmail (updateFirstByEmail db e f) e =
      (queryUserByEmail db e).map f := by
  induction db with
  | nil => rfl
  | cons u rest ih =>
    by_cases h : u.email = e
    · simp [queryUserByEmail, updateFirstByEmail, List.find?, h, hf]
    · simp only [queryUserByEmail, updateFirstByEmail, if_neg h] at *
      simp [List.find?, h, ih]

/-- Core staleness lemma: if the snapshot consulted during resolution (the
cached one on a hit, the account's on a miss) records a last password reset
strictly later than the token's `iat`, resolution fails with the stale-token
401 and leaves the cache unchanged. -/
theorem get_current_user_stale (ttl : Nat) (db : List User) (cache : Cache)
    (now : Rat) (p : Payload) (e : String) (t r : Rat)
    (hsub : p.sub = some e) (hiat : p.iat = some t) (hexp : now ≤ p.exp)
    (hsnap : (∃ entry, cache_get cache ("user:" ++ e) = some entry ∧
                entry.value.last_password_reset = some r) ∨
             (cache_get cache ("user:" ++ e) = none ∧
              ∃ u, queryUserByEmail db e = some u ∧
                u.last_password_reset = some r))
    (hlt : t < r) :
    get_current_user ttl (some p) db cache now =
      (.error stale_token_exception, cache) := by
  rcases hsnap with ⟨entry, hget, hlr⟩ | ⟨hget, u, hq, hlr⟩
  · simp [get_current_user, jwt_decode, if_pos hexp, hsub, hiat, hget, hlr,
      if_pos hlt]
  · simp [get_current_user, jwt_decode, if_pos hexp, hsub, hiat, hget, hq,
      hlr, if_pos hlt]

/-- Core freshness lemma: if the account exists, the snapshot consulted is the
account's (either the cache misses, or it holds exactly the account's
projection), and the account's last reset — if any — is not later than the
token's `iat`, resolution returns the account's snapshot. -/
theorem get_current_user_fresh (ttl : Nat) (db : List User) (cache : Cache)
    (now : Rat) (p : Payload) (e : String) (t : Rat) (u : User)
    (hsub : p.sub = some e) (hiat : p.iat = some t) (hexp : now ≤ p.exp)
    (hfound : queryUserByEmail db e = some u)
    (hfresh : ∀ r, u.last_password_reset = some r → r ≤ t)
    (hcache : cache_get cache ("user:" ++ e) = none ∨
      ∃ ex, cache_get cache ("user:" ++ e) =
        some ⟨UserResponse.model_validate u, ex⟩) :
    (get_current_user ttl (some p) db cache now).1 =
      .ok (UserResponse.model_validate u) := by
  rcases hcache with hget | ⟨ex, hget⟩
  · cases hlr : u.last_password_reset with
    | none =>
      simp [get_current_user, jwt_decode, if_pos hexp, hsub, hiat, hget,
        hfound, hlr]
    | some r =>
      have hnl : ¬ t < r := not_lt.mpr (hfresh r hlr)
      simp [get_current_user, jwt_decode, if_pos hexp, hsub, hiat, hget,
        hfound, hlr, if_neg hnl]
  · have hval : (UserResponse.model_validate u).last_password_reset =
        u.last_password_reset := rfl
    cases hlr : u.last_password_reset with
    | none =>
      simp [get_current_user, jwt_decode, if_pos hexp, hsub, hiat, hget,
        UserResponse.model_validate, hlr]
    | some r =>
      have hnl : ¬ t < r := not_lt.mpr (hfresh r hlr)
      simp [get_current_user, jwt_decode, if_pos hexp, hsub, hiat, hget,
        UserResponse.model_validate, hlr, if_neg hnl]

/-! ### Sample data used by the concrete witnesses -/

/-- A registered account that has never reset its password. -/
def sampleUser : User :=
  ⟨1, "alice", "alice@x.com", "hashed:p@ss1234", .user, none, true, true,
    none, none⟩

/-- The same account after a password reset at time 100. -/
def sampleUserReset : User :=
  { sampleUser with last_password_reset := some 100 }

/-- A bcrypt stand-in for the witnesses: a password verifies against exactly
the string `"hashed:" ++ password`. -/
def sampleVerify : String → String → Bool :=
  fun password hash => hash = "hashed:" ++ password

/-! ### Claims -/

/-- Claim C1: for every account whose last-password-reset timestamp is
non-null, resolving an access token whose `iat` is strictly earlier than that
last-reset timestamp fails with `StaleCredential` (the stale-token 401), even
though the token's own expiry has not passed, and regardless of whether the
snapshot consulted was served from the cache or loaded from the store. -/
theorem C1_stale_token_rejected (ttl : Nat) (db : List User) (cache : Cache)
    (now : Rat) (p : Payload) (e : String) (t r : Rat)
    (hsub : p.sub = some e) (hiat : p.iat = some t) (hexp : now ≤ p.exp)
    (hsnap : (∃ entry, cache_get cache ("user:" ++ e) = some entry ∧
                entry.value.last_password_reset = some r) ∨
             (cache_get cache ("user:" ++ e) = none ∧
              ∃ u, queryUserByEmail db e = some u ∧
                u.last_password_reset = some r))
    (hlt : t < r) :
    get_current_user ttl (some p) db cache now =
      (.error stale_token_exception, cache) :=
  get_current_user_stale ttl db cache now p e t r hsub hiat hexp hsnap hlt

/-- Concrete instance of C1: `alice@x.com` reset at time 100; a well-signed
token issued at time 50 with expiry 1000 is rejected as stale at time 500,
both on a cache miss (store path) and on a cache hit. -/
theorem C1_stale_token_rejected_witness :
    get_current_user 300 (some ⟨some "alice@x.com", some 50, 1000⟩)
        [sampleUserReset] [] 500 =
      (.error stale_token_exception, []) ∧
    get_current_user 300 (some ⟨some "alice@x.com", some 50, 1000⟩) []
        [("user:alice@x.com", ⟨UserResponse.model_validate sampleUserReset, 300⟩)] 500 =
      (.error stale_token_exception,
        [("user:alice@x.com", ⟨UserResponse.model_validate sampleUserReset, 300⟩)]) :=
  ⟨C1_stale_token_rejected 300 [sampleUserReset] [] 500
      ⟨some "alice@x.com", some 50, 1000⟩ "alice@x.com" 50 100 rfl rfl
      (by norm_num)
      (Or.inr ⟨rfl, sampleUserReset, by decide, rfl⟩) (by norm_num),
    C1_stale_token_rejected 300 []
      [("user:alice@x.com", ⟨UserResponse.model_validate sampleUserReset, 300⟩)] 500
      ⟨some "alice@x.com", some 50, 1000⟩ "alice@x.com" 50 100 rfl rfl
      (by norm_num)
      (Or.inl ⟨⟨UserResponse.model_validate sampleUserReset, 300⟩, by decide, rfl⟩)
      (by norm_num)⟩

/-- Claim C4: a well-signed, unexpired access token whose `iat` is not earlier
than the account's last password reset (or whose account never reset) resolves
successfully to the account's identity snapshot — whether the cache misses or
holds the account's snapshot. -/
theorem C4_fresh_token_resolves (ttl : Nat) (db : List User) (cache : Cache)
    (now : Rat) (p : Payload) (e : String) (t : Rat) (u : User)
    (hsub : p.sub = some e) (hiat : p.iat = some t) (hexp : now ≤ p.exp)
    (hfound : queryUserByEmail db e = some u)
    (hfresh : ∀ r, u.last_password_reset = some r → r ≤ t)
    (hcache : cache_get cache ("user:" ++ e) = none ∨
      ∃ ex, cache_get cache ("user:" ++ e) =
        some ⟨UserResponse.model_validate u, ex⟩) :
    (get_current_user ttl (some p) db cache now).1 =
      .ok (UserResponse.model_validate u) :=
  get_current_user_fresh ttl db cache now p e t u hsub hiat hexp hfound
    hfresh hcache

/-- Concrete instance of C4: a token issued at time 150 (after the reset at
time 100) with expiry 1000 resolves at time 500 to alice's snapshot. -/
theorem C4_fresh_token_resolves_witness :
    (get_current_user 300 (some ⟨some "alice@x.com", some 150, 1000⟩)
        [sampleUserReset] [] 500).1 =
      .ok (UserResponse.model_validate sampleUserReset) :=
  C4_fresh_token_resolves 300 [sampleUserReset] [] 500
    ⟨some "alice@x.com", some 150, 1000⟩ "alice@x.com" 150 sampleUserReset
    rfl rfl (by norm_num) (by decide)
    (by intro r hr; simp [sampleUserReset, sampleUser] at hr; rw [← hr]; norm_num)
    (Or.inl rfl)

/-- Claim C7: round-trip — a token minted by `create_access_token` with
subject `S` at time `t0`, resolved before its expiry against a store holding
the account for `S` with no password reset after issuance, yields a snapshot
whose email equals `S`. -/
theorem C7_round_trip (ttl : Nat) (db : List User) (cache : Cache)
    (S : String) (delta : Option Rat) (t0 now : Rat) (u : User)
    (hmiss : cache_get cache ("user:" ++ S) = none)
    (hfound : queryUserByEmail db S = some u)
    (hfresh : ∀ r, u.last_password_reset = some r → r ≤ t0)
    (hnow : now ≤ match delta with
      | some d => t0 + d
      | none => t0 + 15 * 60) :
    ∃ snap, (get_current_user ttl (create_access_token S delta t0)
        db cache now).1 = .ok snap ∧ snap.email = S := by
  refine ⟨UserResponse.model_validate u, ?_, queryUserByEmail_email hfound⟩
  cases delta with
  | some d =>
    exact get_current_user_fresh ttl db cache now ⟨some S, some t0, t0 + d⟩
      S t0 u rfl rfl hnow hfound hfresh (Or.inl hmiss)
  | none =>
    exact get_current_user_fresh ttl db cache now
      ⟨some S, some t0, t0 + 15 * 60⟩ S t0 u rfl rfl hnow hfound hfresh
      (Or.inl hmiss)

/-- Concrete instance of C7: a token minted for `alice@x.com` at time 200
with a 30-minute lifetime resolves at time 500 to a snapshot whose email is
`alice@x.com`. -/
theorem C7_round_trip_witness :
    ∃ snap, (get_current_user 300 (create_access_token "alice@x.com"
        (some (30 * 60)) 200) [sampleUserReset] [] 500).1 = .ok snap ∧
      snap.email = "alice@x.com" :=
  C7_round_trip 300 [sampleUserReset] [] "alice@x.com" (some (30 * 60)) 200
    500 sampleUserReset rfl (by decide)
    (by intro r hr; simp [sampleUserReset, sampleUser] at hr; rw [← hr]; norm_num)
    (by norm_num)

/-- Claim C2: after a successful password reset for email `e`, the cache
holds no snapshot for `e` (explicitly deleted), the account carries the new
last-reset timestamp, and any resolution of a pre-reset token (issued-at
strictly before the reset time) against the post-reset state observes the
stale-token 401, never a stale cache hit. -/
theorem C2_reset_evicts_and_invalidates
    (hashFn : String → String) (ttl : Nat) (db : List User) (cache : Cache)
    (rp : Payload) (e new_pw : String) (nowR : Rat) (u : User)
    (res : Except HTTPError String) (db' : List User) (cache' : Cache)
    (hsub : rp.sub = some e) (hne : e ≠ "") (hexp : nowR ≤ rp.exp)
    (hfound : queryUserByEmail db e = some u)
    (hrun : reset_password hashFn (some rp) new_pw db cache nowR =
      (res, db', cache')) :
    res = .ok "Password reset successful." ∧
    cache_get cache' ("user:" ++ e) = none ∧
    (∃ u', queryUserByEmail db' e = some u' ∧
      u'.last_password_reset = some nowR) ∧
    ∀ (q : Payload) (t now' : Rat), q.sub = some e → q.iat = some t →
      now' ≤ q.exp → t < nowR →
      get_current_user ttl (some q) db' cache' now' =
        (.error stale_token_exception, cache') := by
  simp only [reset_password, jwt_decode, if_pos hexp, hsub, if_neg hne,
    hfound] at hrun
  obtain ⟨hres, hdb, hcache⟩ : res = .ok "Password reset successful." ∧
      db' = updateFirstByEmail db e (fun v =>
        { v with hashed_password := hashFn new_pw,
                 last_password_reset := some nowR }) ∧
      cache' = cache_delete cache ("user:" ++ e) := by
    have h1 := congrArg Prod.fst hrun
    have h2 := congrArg (fun x => x.2.1) hrun
    have h3 := congrArg (fun x => x.2.2) hrun
    exact ⟨h1.symm, h2.symm, h3.symm⟩
  have hquery : queryUserByEmail db' e = some
      { u with hashed_password := hashFn new_pw,
               last_password_reset := some nowR } := by
    rw [hdb, queryUserByEmail_updateFirstByEmail db e
      (fun v => { v with hashed_password := hashFn new_pw,
                         last_password_reset := some nowR })
      (fun v => rfl), hfound]
    rfl
  have hevict : cache_get cache' ("user:" ++ e) = none := by
    rw [hcache]; exact cache_get_cache_delete_self cache ("user:" ++ e)
  refine ⟨hres, hevict, ⟨_, hquery, rfl⟩, ?_⟩
  intro q t now' hqsub hqiat hqexp hlt
  exact get_current_user_stale ttl db' cache' now' q e t nowR hqsub hqiat
    hqexp (Or.inr ⟨hevict, _, hquery, rfl⟩) hlt

/-- Concrete instance of C2: alice resets her password at time 100 via a
valid reset token; afterwards the cache has no entry for her, her account
records reset time 100, and her old token (issued at time 50) is rejected as
stale at time 500. -/
theorem C2_reset_evicts_and_invalidates_witness :
    (reset_password (fun p => "hashed:" ++ p)
        (some ⟨some "alice@x.com", none, 3600⟩) "newpass" [sampleUser]
        [("user:alice@x.com", ⟨UserResponse.model_validate sampleUser, 300⟩)]
        100).1 = .ok "Password reset successful." ∧
    get_current_user 300 (some ⟨some "alice@x.com", some 50, 1000⟩)
        (reset_password (fun p => "hashed:" ++ p)
          (some ⟨some "alice@x.com", none, 3600⟩) "newpass" [sampleUser]
          [("user:alice@x.com", ⟨UserResponse.model_validate sampleUser, 300⟩)]
          100).2.1
        (reset_password (fun p => "hashed:" ++ p)
          (some ⟨some "alice@x.com", none, 3600⟩) "newpass" [sampleUser]
          [("user:alice@x.com", ⟨UserResponse.model_validate sampleUser, 300⟩)]
          100).2.2 500 =
      (.error stale_token_exception,
        (reset_password (fun p => "hashed:" ++ p)
          (some ⟨some "alice@x.com", none, 3600⟩) "newpass" [sampleUser]
          [("user:alice@x.com", ⟨UserResponse.model_validate sampleUser, 300⟩)]
          100).2.2) := by
  have h := C2_reset_evicts_and_invalidates (fun p => "hashed:" ++ p) 300
    [sampleUser]
    [("user:alice@x.com", ⟨UserResponse.model_validate sampleUser, 300⟩)]
    ⟨some "alice@x.com", none, 3600⟩ "alice@x.com" "newpass" 100 sampleUser
    _ _ _ rfl (by decide) (by norm_num) (by decide) rfl
  exact ⟨h.1, h.2.2.2 ⟨some "alice@x.com", some 50, 1000⟩ 50 500 rfl rfl
    (by norm_num) (by norm_num)⟩

/-- Claim C3 counterexample: with the account for `alice@x.com` present (last
reset at time 100) and an empty cache, resolving a stale token (`iat = 50`)
misses the cache, finds the account, fails stale — and writes nothing into
the cache: the final cache is still empty, refuting the claim that on a cache
miss with an existing account "a snapshot is built and written into the cache
with the configured time-to-live, and then the invalidation check is applied".
-/
theorem C3_store_fallback_counterexample :
    queryUserByEmail [sampleUserReset] "alice@x.com" = some sampleUserReset ∧
    cache_get [] ("user:" ++ "alice@x.com") = none ∧
    (get_current_user 300 (some ⟨some "alice@x.com", some 50, 1000⟩)
        [sampleUserReset] [] 500).1 = .error stale_token_exception ∧
    (get_current_user 300 (some ⟨some "alice@x.com", some 50, 1000⟩)
        [sampleUserReset] [] 500).2 = [] :=
  ⟨by decide, rfl, rfl, rfl⟩

/-- Claim C3 (amended): on a cache miss, an unknown subject fails with the
invalid-credential 401 (reported to end users identically to invalid tokens)
and the cache is unchanged; when the account exists the invalidation check is
applied to the freshly built snapshot first — only if it passes is the
snapshot written into the cache with the configured time-to-live and
returned; if it fails, resolution errors stale and no snapshot is written. -/
theorem C3_store_fallback (ttl : Nat) (db : List User) (cache : Cache)
    (now : Rat) (p : Payload) (e : String) (t : Rat)
    (hsub : p.sub = some e) (hiat : p.iat = some t) (hexp : now ≤ p.exp)
    (hmiss : cache_get cache ("user:" ++ e) = none) :
    (queryUserByEmail db e = none →
      get_current_user ttl (some p) db cache now =
        (.error credentials_exception, cache)) ∧
    (∀ u r, queryUserByEmail db e = some u →
      u.last_password_reset = some r → t < r →
      get_current_user ttl (some p) db cache now =
        (.error stale_token_exception, cache)) ∧
    (∀ u, queryUserByEmail db e = some u →
      (∀ r, u.last_password_reset = some r → r ≤ t) →
      get_current_user ttl (some p) db cache now =
        (.ok (UserResponse.model_validate u),
         cache_set cache ("user:" ++ e) (UserResponse.model_validate u) ttl)) := by
  refine ⟨?_, ?_, ?_⟩
  · intro hnone
    simp [get_current_user, jwt_decode, if_pos hexp, hsub, hiat, hmiss, hnone]
  · intro u r hu hlr hlt
    simp [get_current_user, jwt_decode, if_pos hexp, hsub, hiat, hmiss, hu,
      hlr, if_pos hlt]
  · intro u hu hfresh
    cases hlr : u.last_password_reset with
    | none =>
      simp [get_current_user, jwt_decode, if_pos hexp, hsub, hiat, hmiss, hu,
        hlr]
    | some r =>
      have hnl : ¬ t < r := not_lt.mpr (hfresh r hlr)
      simp [get_current_user, jwt_decode, if_pos hexp, hsub, hiat, hmiss, hu,
        hlr, if_neg hnl]

/-- Concrete instance of the amended C3: an unknown subject (`bob@x.com`)
fails with the invalid-credential 401 leaving the cache unchanged, and a
fresh token for alice populates the cache with her snapshot under the
configured TTL. -/
theorem C3_store_fallback_witness :
    get_current_user 300 (some ⟨some "bob@x.com", some 50, 1000⟩)
        [sampleUser] [] 500 = (.error credentials_exception, []) ∧
    get_current_user 300 (some ⟨some "alice@x.com", some 150, 1000⟩)
        [sampleUserReset] [] 500 =
      (.ok (UserResponse.model_validate sampleUserReset),
       cache_set [] ("user:" ++ "alice@x.com")
         (UserResponse.model_validate sampleUserReset) 300) :=
  ⟨(C3_store_fallback 300 [sampleUser] [] 500
      ⟨some "bob@x.com", some 50, 1000⟩ "bob@x.com" 50 rfl rfl (by norm_num)
      rfl).1 (by decide),
   (C3_store_fallback 300 [sampleUserReset] [] 500
      ⟨some "alice@x.com", some 150, 1000⟩ "alice@x.com" 150 rfl rfl
      (by norm_num) rfl).2.2 sampleUserReset (by decide)
      (by intro r hr; simp [sampleUserReset, sampleUser] at hr; rw [← hr];
          norm_num)⟩

/-- Claim C5 (code bug, evaluated at the failing input): logging in with the
correct email and password makes `login_for_access_token` return a dict with
an access token and `token_type = "bearer"` but no `refresh_token` key, so
the response fails validation against the endpoint's own declared response
model `schemas.Token` (whose `refresh_token` field is required) — no
access+refresh pair is produced.  The wrong-password half of the claim does
hold: a 401 with no token of either kind. -/
theorem C5_login_returns_no_refresh_token :
    (∃ d, login_for_access_token sampleVerify 30 [sampleUser] "alice@x.com"
        "p@ss1234" 500 = .ok d ∧
      d.access_token =
        some (create_access_token "alice@x.com" (some (30 * 60)) 500) ∧
      d.refresh_token = none ∧
      d.token_type = some "bearer" ∧
      Token.model_validate d = none) ∧
    login_for_access_token sampleVerify 30 [sampleUser] "alice@x.com" "wrong"
        500 = .error ⟨401, "Incorrect email or password"⟩ :=
  ⟨⟨⟨some (create_access_token "alice@x.com" (some (30 * 60)) 500), none,
      some "bearer"⟩, rfl, rfl, rfl, rfl, rfl⟩, rfl⟩

/-- A snapshot cached under the empty-subject key, used to refute C6. -/
def emptySubSnapshot : UserResponse :=
  ⟨2, "ghost", "", true, true, none, none, .user⟩

/-- An account row whose email is the empty string, used to refute C6. -/
def emptyEmailUser : User :=
  ⟨2, "ghost", "", "hashed:x", .user, none, true, true, none, none⟩

/-- Claim C6 counterexample: a well-signed, unexpired token whose subject is
present but *empty* (`sub = ""`) is not rejected at claim extraction — it
proceeds to the cache (first conjunct: a cache hit under the key `"user:"`
resolves successfully) and, on a cache miss, to the store (second conjunct:
the row with empty email is loaded and the cache written), contradicting the
claim that an empty subject fails with `InvalidCredential` before any cache
or store access. -/
theorem C6_empty_subject_counterexample :
    get_current_user 300 (some ⟨some "", some 50, 1000⟩) []
        [("user:", ⟨emptySubSnapshot, 300⟩)] 500 =
      (.ok emptySubSnapshot, [("user:", ⟨emptySubSnapshot, 300⟩)]) ∧
    get_current_user 300 (some ⟨some "", some 50, 1000⟩) [emptyEmailUser] []
        500 =
      (.ok (UserResponse.model_validate emptyEmailUser),
       cache_set [] ("user:" ++ "")
         (UserResponse.model_validate emptyEmailUser) 300) :=
  ⟨rfl, rfl⟩

/-- Claim C6 (amended): after signature and expiry verification, the decoded
claims must contain a subject and an issued-at claim; if the subject claim is
absent or the issued-at claim is absent, resolution fails with the
invalid-credential 401 before any cache or store access — the outcome is the
same for every cache and store content, and the cache is left unchanged.  (An
*empty* subject string is not rejected at claim extraction; it proceeds to
the cache/store lookup.) -/
theorem C6_claim_extraction (ttl : Nat) (p : Payload) (now : Rat)
    (hexp : now ≤ p.exp) (hmissing : p.sub = none ∨ p.iat = none) :
    ∀ (db : List User) (cache : Cache),
      get_current_user ttl (some p) db cache now =
        (.error credentials_exception, cache) := by
  intro db cache
  rcases hmissing with h | h
  · simp [get_current_user, jwt_decode, if_pos hexp, h]
  · cases hs : p.sub with
    | none => simp [get_current_user, jwt_decode, if_pos hexp, hs]
    | some e => simp [get_current_user, jwt_decode, if_pos hexp, hs, h]

/-- Concrete instance of the amended C6: a token lacking a subject claim is
rejected with the invalid-credential 401 even though the store knows the
account and the cache holds her snapshot, and the cache is unchanged. -/
theorem C6_claim_extraction_witness :
    get_current_user 300 (some ⟨none, some 50, 1000⟩) [sampleUser]
        [("user:alice@x.com", ⟨UserResponse.model_validate sampleUser, 300⟩)]
        500 =
      (.error credentials_exception,
       [("user:alice@x.com", ⟨UserResponse.model_validate sampleUser, 300⟩)]) :=
  C6_claim_extraction 300 ⟨none, some 50, 1000⟩ 500 (by norm_num)
    (Or.inl rfl) [sampleUser]
    [("user:alice@x.com", ⟨UserResponse.model_validate sampleUser, 300⟩)]

/-- Claim C8: cache population is idempotent — if resolving a token returns
snapshot `s` and leaves the cache in state `c'` (in particular, a cache miss
that populated the cache from the store), then resolving the same, still
unexpired token again against the same store and cache `c'`, with no
intervening eviction or account mutation, returns the identical snapshot and
leaves the cache unchanged. -/
theorem C8_resolution_idempotent (ttl : Nat) (db : List User) (cache : Cache)
    (now now' : Rat) (p : Payload) (s : UserResponse) (c' : Cache)
    (h1 : get_current_user ttl (some p) db cache now = (.ok s, c'))
    (hexp2 : now' ≤ p.exp) :
    get_current_user ttl (some p) db c' now' = (.ok s, c') := by
  by_cases hexp1 : now ≤ p.exp
  case neg => simp [get_current_user, jwt_decode, if_neg hexp1] at h1
  cases hsub : p.sub with
  | none => simp [get_current_user, jwt_decode, if_pos hexp1, hsub] at h1
  | some e =>
  cases hiat : p.iat with
  | none => simp [get_current_user, jwt_decode, if_pos hexp1, hsub, hiat] at h1
  | some t =>
  cases hget : cache_get cache ("user:" ++ e) with
  | some entry =>
    cases hlr : entry.value.last_password_reset with
    | none =>
      simp [get_current_user, jwt_decode, if_pos hexp1, hsub, hiat, hget,
        hlr] at h1
      obtain ⟨hs, hc⟩ := h1
      rw [hs] at hlr
      simp [get_current_user, jwt_decode, if_pos hexp2, hsub, hiat, ← hc,
        hget, hlr, hs]
    | some r =>
      by_cases hlt : t < r
      · simp [get_current_user, jwt_decode, if_pos hexp1, hsub, hiat, hget,
          hlr, if_pos hlt] at h1
      · simp [get_current_user, jwt_decode, if_pos hexp1, hsub, hiat, hget,
          hlr, if_neg hlt] at h1
        obtain ⟨hs, hc⟩ := h1
        rw [hs] at hlr
        simp [get_current_user, jwt_decode, if_pos hexp2, hsub, hiat, ← hc,
          hget, hlr, if_neg hlt, hs]
  | none =>
    cases hu : queryUserByEmail db e with
    | none =>
      simp [get_current_user, jwt_decode, if_pos hexp1, hsub, hiat, hget,
        hu] at h1
    | some u =>
      cases hlr : u.last_password_reset with
      | none =>
        simp [get_current_user, jwt_decode, if_pos hexp1, hsub, hiat, hget,
          hu, hlr] at h1
        obtain ⟨hs, hc⟩ := h1
        have hget' : cache_get c' ("user:" ++ e) = some ⟨s, ttl⟩ := by
          rw [← hc, ← hs]
          exact cache_get_cache_set_self cache ("user:" ++ e)
            (UserResponse.model_validate u) ttl
        have hlr' : s.last_password_reset = none := by
          rw [← hs]; exact hlr
        simp [get_current_user, jwt_decode, if_pos hexp2, hsub, hiat, hget',
          hlr']
      | some r =>
        by_cases hlt : t < r
        · simp [get_current_user, jwt_decode, if_pos hexp1, hsub, hiat, hget,
            hu, hlr, if_pos hlt] at h1
        · simp [get_current_user, jwt_decode, if_pos hexp1, hsub, hiat, hget,
            hu, hlr, if_neg hlt] at h1
          obtain ⟨hs, hc⟩ := h1
          have hget' : cache_get c' ("user:" ++ e) = some ⟨s, ttl⟩ := by
            rw [← hc, ← hs]
            exact cache_get_cache_set_self cache ("user:" ++ e)
              (UserResponse.model_validate u) ttl
          have hlr' : s.last_password_reset = some r := by
            rw [← hs]; exact hlr
          simp [get_current_user, jwt_decode, if_pos hexp2, hsub, hiat,
            hget', hlr', if_neg hlt]

/-- Concrete instance of C8: alice's fresh token first misses the empty cache
and populates it from the store; resolving it again against the populated
cache returns the identical snapshot and leaves the cache unchanged. -/
theorem C8_resolution_idempotent_witness :
    get_current_user 300 (some ⟨some "alice@x.com", some 150, 1000⟩)
        [sampleUserReset]
        (cache_set [] ("user:" ++ "alice@x.com")
          (UserResponse.model_validate sampleUserReset) 300) 600 =
      (.ok (UserResponse.model_validate sampleUserReset),
       cache_set [] ("user:" ++ "alice@x.com")
         (UserResponse.model_validate sampleUserReset) 300) :=
  C8_resolution_idempotent 300 [sampleUserReset] [] 500 600
    ⟨some "alice@x.com", some 150, 1000⟩
    (UserResponse.model_validate sampleUserReset)
    (cache_set [] ("user:" ++ "alice@x.com")
      (UserResponse.model_validate sampleUserReset) 300)
    rfl (by norm_num)

/-- A revoked refresh-token record, used by the C9 witness. -/
def sampleRevokedRefresh : RefreshToken :=
  ⟨0, 1, "revoked-token-value", 0, 1000, true⟩

/-- Claim C9: a refresh token whose persisted record is revoked or expired
never yields a new access token.  In this codebase no operation consumes a
refresh token at all (there is no refresh/exchange endpoint; `Operation`
enumerates every route handler): the access tokens an operation mints are
exactly the same whether the revoked/expired record is in the store or
erased from it, so no access token is ever derived from it. -/
theorem C9_revoked_refresh_yields_no_access_token
    (verifyFn : String → String → Bool)
    (accessExpireMinutes refreshLifetime : Rat) (op : Operation)
    (users : List User) (store : List RefreshToken) (now : Rat)
    (rt : RefreshToken) (hmem : rt ∈ store)
    (hbad : rt.revoked = true ∨ rt.expires_at < now) :
    issued_access_tokens verifyFn accessExpireMinutes refreshLifetime op
        users store now =
      issued_access_tokens verifyFn accessExpireMinutes refreshLifetime op
        users (store.erase rt) now := by
  cases op with
  | loginJson u pw => rfl
  | loginHtml u pw rv =>
    simp only [issued_access_tokens, login_html, create_refresh_token]
    cases hauth : authenticate_user verifyFn users u pw <;> simp [hauth]
  | resetPassword tok np => rfl
  | verifyEmail tok => rfl
  | registerUser a b c => rfl
  | resolve tok => rfl
  | logout => rfl

/-- Concrete instance of C9: with a revoked refresh token in the store, a
JSON login and an HTML login mint exactly the access tokens they would mint
with that record erased. -/
theorem C9_revoked_refresh_yields_no_access_token_witness :
    issued_access_tokens sampleVerify 30 604800
        (.loginJson "alice@x.com" "p@ss1234") [sampleUser]
        [sampleRevokedRefresh] 500 =
      issued_access_tokens sampleVerify 30 604800
        (.loginJson "alice@x.com" "p@ss1234") [sampleUser]
        ([sampleRevokedRefresh].erase sampleRevokedRefresh) 500 ∧
    issued_access_tokens sampleVerify 30 604800
        (.loginHtml "alice@x.com" "p@ss1234" "rt-value") [sampleUser]
        [sampleRevokedRefresh] 500 =
      issued_access_tokens sampleVerify 30 604800
        (.loginHtml "alice@x.com" "p@ss1234" "rt-value") [sampleUser]
        ([sampleRevokedRefresh].erase sampleRevokedRefresh) 500 :=
  ⟨C9_revoked_refresh_yields_no_access_token sampleVerify 30 604800
      (.loginJson "alice@x.com" "p@ss1234") [sampleUser]
      [sampleRevokedRefresh] 500 sampleRevokedRefresh (by decide)
      (Or.inl rfl),
   C9_revoked_refresh_yields_no_access_token sampleVerify 30 604800
      (.loginHtml "alice@x.com" "p@ss1234" "rt-value") [sampleUser]
      [sampleRevokedRefresh] 500 sampleRevokedRefresh (by decide)
      (Or.inl rfl)⟩

/-- Claim C10: password reset is atomic on error — a reset token that fails
signature/expiry verification, or whose payload lacks a (non-empty) subject,
or whose subject matches no account, makes `reset_password` raise the
corresponding error while leaving every account row unchanged and deleting
no cache entry. -/
theorem C10_reset_password_atomic_on_error (hashFn : String → String)
    (token : SignedToken) (new_password : String) (db : List User)
    (cache : Cache) (now : Rat) :
    (jwt_decode token now = none →
      reset_password hashFn token new_password db cache now =
        (.error ⟨400, "Invalid or expired token"⟩, db, cache)) ∧
    (∀ p, jwt_decode token now = some p →
      (p.sub = none ∨ p.sub = some "") →
      reset_password hashFn token new_password db cache now =
        (.error ⟨400, "Invalid token"⟩, db, cache)) ∧
    (∀ p e, jwt_decode token now = some p → p.sub = some e → e ≠ "" →
      queryUserByEmail db e = none →
      reset_password hashFn token new_password db cache now =
        (.error ⟨404, "User not found"⟩, db, cache)) := by
  refine ⟨?_, ?_, ?_⟩
  · intro h
    simp [reset_password, h]
  · intro q hq hsub
    rcases hsub with h | h
    · simp [reset_password, hq, h]
    · simp [reset_password, hq, h]
  · intro q e hq hsub hne hnone
    simp [reset_password, hq, hsub, if_neg hne, hnone]

/-- Concrete instances of C10: an expired reset token, a reset token lacking
a subject, and a reset token for an unknown email each fail with their
respective error and leave both the users table and the cache exactly as
they were. -/
theorem C10_reset_password_atomic_on_error_witness :
    reset_password (fun p => "hashed:" ++ p)
        (some ⟨some "alice@x.com", none, 10⟩) "npw" [sampleUser]
        [("k", ⟨UserResponse.model_validate sampleUser, 300⟩)] 500 =
      (.error ⟨400, "Invalid or expired token"⟩, [sampleUser],
        [("k", ⟨UserResponse.model_validate sampleUser, 300⟩)]) ∧
    reset_password (fun p => "hashed:" ++ p) (some ⟨none, none, 1000⟩) "npw"
        [sampleUser] [] 500 =
      (.error ⟨400, "Invalid token"⟩, [sampleUser], []) ∧
    reset_password (fun p => "hashed:" ++ p)
        (some ⟨some "bob@x.com", none, 1000⟩) "npw" [sampleUser] [] 500 =
      (.error ⟨404, "User not found"⟩, [sampleUser], []) :=
  ⟨(C10_reset_password_atomic_on_error (fun p => "hashed:" ++ p)
      (some ⟨some "alice@x.com", none, 10⟩) "npw" [sampleUser]
      [("k", ⟨UserResponse.model_validate sampleUser, 300⟩)] 500).1
      (by norm_num [jwt_decode]),
   (C10_reset_password_atomic_on_error (fun p => "hashed:" ++ p)
      (some ⟨none, none, 1000⟩) "npw" [sampleUser] [] 500).2.1
      ⟨none, none, 1000⟩ (by norm_num [jwt_decode]) (Or.inl rfl),
   (C10_reset_password_atomic_on_error (fun p => "hashed:" ++ p)
      (some ⟨some "bob@x.com", none, 1000⟩) "npw" [sampleUser] [] 500).2.2
      ⟨some "bob@x.com", none, 1000⟩ "bob@x.com"
      (by norm_num [jwt_decode]) rfl (by decide) (by decide)⟩

end App
